import Mathlib

/-!
Shallow embedding of the interactive-playground and theme subsystem of the
dexbee-docs repository, together with theorems settling the specification
claims about it.

The embedded code:
* `src/hooks/useTheme.ts` — `safeGetStoredTheme`, `safeSetStoredTheme`,
  `getInitialTheme`, the hook's `toggleTheme`;
* `src/utils/theme.ts` (second copy, with the event dispatch) — `toggleTheme`;
* `src/components/react/TabbedCodeBlock.tsx` (the playground component in its
  second section) — `clearSampleData`, `insertSampleData`,
  `initializePlayground`, `resetPlayground`, `runCode`, `mockConsole`;
* the consumed surface of the external dexbee-js library
  (`connect/table/insert/insertMany/all/delete`), modelled as an
  auto-increment keyed table per its documented IndexedDB semantics.

Effectful steps that can fail (storage access, database operations) are
modelled with `Except` or an explicit failure-injection profile; JavaScript
exceptions propagating to a caller are `Except.error` values, and a Lean
function returning a plain (non-`Except`) result models a JavaScript function
that never throws to its caller.
-/

namespace DexBeeDocs

/-! ## Theme state (src/hooks/useTheme.ts and src/utils/theme.ts) -/

/-- Durable per-origin key-value storage holding the `"theme"` key.
`available := false` models an environment where every storage access
throws (privacy mode, quota, sandboxed iframe). -/
structure Storage where
  available : Bool
  stored : Option String
deriving DecidableEq, Repr

/-- Model of `localStorage.getItem("theme")`: returns the stored value
(`none` when absent) or throws when storage is unavailable. -/
def getItemTheme (s : Storage) : Except String (Option String) :=
  if s.available then .ok s.stored else .error "SecurityError"

/-- Model of `localStorage.setItem("theme", t)`: stores the value or throws
when storage is unavailable. -/
def setItemTheme (s : Storage) (t : String) : Except String Storage :=
  if s.available then .ok { s with stored := some t } else .error "SecurityError"

/-- Embeds `safeGetStoredTheme` (src/hooks/useTheme.ts lines 4-11): the
getItem call is wrapped in try/catch and a failure is returned as `null`. -/
def safeGetStoredTheme (s : Storage) : Option String :=
  match getItemTheme s with
  | .ok v => v
  | .error _ => none

/-- Embeds `safeSetStoredTheme` (src/hooks/useTheme.ts lines 13-20): the
setItem call is wrapped in try/catch and a failure is silently ignored. -/
def safeSetStoredTheme (s : Storage) (t : String) : Storage :=
  match setItemTheme s t with
  | .ok s2 => s2
  | .error _ => s

/-- The browser window context available when a rendering surface exists:
the OS-level color-scheme preference and the storage object. -/
structure BrowserWindow where
  systemPrefersDark : Bool
  storage : Storage
deriving DecidableEq, Repr

/-- JavaScript `a || b` for an optional string `a`: `null` and the empty
string are falsy. -/
def jsOrElse (a : Option String) (b : String) : String :=
  match a with
  | some s => if s == "" then b else s
  | none => b

/-- Embeds `getInitialTheme` (src/hooks/useTheme.ts lines 23-33).
`window := none` models `typeof window === 'undefined'` (no rendering
surface, e.g. server-side rendering before first paint). -/
def getInitialTheme (window : Option BrowserWindow) : Bool :=
  match window with
  | none => false
  | some w =>
    let storedTheme := safeGetStoredTheme w.storage
    let theme := jsOrElse storedTheme (if w.systemPrefersDark then "dark" else "light")
    theme == "dark"

/-- Detail payload of a dispatched `themeChange` CustomEvent. -/
structure ThemeEvent where
  theme : String
  isDark : Bool
deriving DecidableEq, Repr

/-- Page state observed and mutated by the `useTheme` hook: the `dark` class
on the document element, the storage, the hook's React state `isDark`, and
the log of dispatched `themeChange` events. -/
structure HookPage where
  darkClass : Bool
  storage : Storage
  isDark : Bool
  events : List ThemeEvent
deriving DecidableEq, Repr

/-- Embeds the hook's `toggleTheme` (src/hooks/useTheme.ts lines 91-106):
negate the theme, toggle the document class, persist via
`safeSetStoredTheme`, update the React state, dispatch the event. Returning
a plain `HookPage` (not `Except`) reflects that every failure point inside
it is guarded, so it never throws to its caller. -/
def hookToggleTheme (p : HookPage) : HookPage :=
  let newTheme := if p.isDark then "light" else "dark"
  let newIsDark := newTheme == "dark"
  { darkClass := newIsDark
    storage := safeSetStoredTheme p.storage newTheme
    isDark := newIsDark
    events := p.events ++ [{ theme := newTheme, isDark := newIsDark }] }

/-- Page state for the standalone utility `toggleTheme` of
src/utils/theme.ts, which keeps no React state: the document class, the
storage, and dispatched events. -/
structure UtilsPage where
  darkClass : Bool
  storage : Storage
  events : List ThemeEvent
deriving DecidableEq, Repr

/-- Result of the utility `toggleTheme`: `raised` is the exception that
propagated to the caller, if any, next to the page state its side effects
left behind. -/
structure UtilsResult where
  raised : Option String
  page : UtilsPage
deriving DecidableEq, Repr

/-- Embeds `toggleTheme` from src/utils/theme.ts lines 39-53 (the copy that
dispatches the `themeChange` event): reads the current theme from the
document class, toggles the class, then calls `localStorage.setItem`
unguarded — when that throws, the exception propagates to the caller and
the event dispatch after it is skipped. -/
def utilsToggleTheme (p : UtilsPage) : UtilsResult :=
  let newTheme := if p.darkClass then "light" else "dark"
  let p1 := { p with darkClass := newTheme == "dark" }
  match setItemTheme p1.storage newTheme with
  | .error e => { raised := some e, page := p1 }
  | .ok st =>
    { raised := none
      page := { p1 with
        storage := st
        events := p1.events ++ [{ theme := newTheme, isDark := newTheme == "dark" }] } }

/-! ## Captured console and sandboxed execution (TabbedCodeBlock.tsx `runCode`) -/

/-- A JavaScript value as far as the playground observes it.
`prim str` is a non-object value whose `String(v)` coercion is `str`;
`comp json str` is an object value whose `JSON.stringify(v, null, 2)`
rendering is `json` and whose `String(v)` coercion is `str`;
`ext name` is one of the opaque injected bindings (the console facade, the
database handle, or a query-condition constructor) — its serialized
renderings are not modelled and no theorem logs one. -/
inductive JsValue where
  | prim (str : String)
  | comp (json : String) (str : String)
  | ext (name : String)
deriving DecidableEq, Repr

/-- The rendering used by `mockConsole.log`
(`typeof arg === 'object' ? JSON.stringify(arg, null, 2) : String(arg)`). -/
def logRender : JsValue → String
  | .prim s => s
  | .comp j _ => j
  | .ext _ => ""

/-- The `String(arg)` coercion used by `mockConsole.error` and
`mockConsole.warn` on every argument. -/
def strRender : JsValue → String
  | .prim s => s
  | .comp _ s => s
  | .ext _ => ""

/-- Embeds `mockConsole.log` (TabbedCodeBlock.tsx lines 316-318): each
argument is JSON-stringified with indent 2 when it is an object and
`String`-coerced otherwise, and the pieces are joined with a space. -/
def mockConsoleLog (logs : List String) (args : List JsValue) : List String :=
  logs ++ [String.intercalate " " (args.map logRender)]

/-- Embeds `mockConsole.error` (TabbedCodeBlock.tsx line 319): every
argument is `String`-coerced and the line is tagged `ERROR: `. -/
def mockConsoleError (logs : List String) (args : List JsValue) : List String :=
  logs ++ ["ERROR: " ++ String.intercalate " " (args.map strRender)]

/-- Embeds `mockConsole.warn` (TabbedCodeBlock.tsx line 320): every
argument is `String`-coerced and the line is tagged `WARN: `. -/
def mockConsoleWarn (logs : List String) (args : List JsValue) : List String :=
  logs ++ ["WARN: " ++ String.intercalate " " (args.map strRender)]

/-- A channel of the injected logging facade. -/
inductive Channel where
  | log
  | error
  | warn
deriving DecidableEq, Repr

/-- An expression of the executed source text, as far as scope resolution is
concerned: a value literal or a free identifier. -/
inductive Expr where
  | lit (v : JsValue)
  | name (n : String)
deriving DecidableEq, Repr

/-- A statement of the executed source text. `call ch args` is a call
through the parameter `console` on channel `ch`; `throwErr m` is
`throw new Error(m)` — a rejected awaited step inside the async body reaches
the same catch and is modelled by the same constructor. -/
inductive Stmt where
  | call (ch : Channel) (args : List Expr)
  | throwErr (msg : String)
deriving DecidableEq, Repr

/-- Free-identifier resolution inside a `new Function(p1, ..., pn, body)`
body (TabbedCodeBlock.tsx lines 307-311): the declared parameters shadow
same-named globals, and every other free name resolves in the ambient
global scope — `new Function` excludes only the enclosing local scopes,
not the global object. -/
def lookupName (bindings globals : List (String × JsValue)) (n : String) : Option JsValue :=
  match bindings.lookup n with
  | some v => some v
  | none => globals.lookup n

/-- Expression evaluation: an unbound free identifier raises a
ReferenceError. -/
def evalExpr (bindings globals : List (String × JsValue)) : Expr → Except String JsValue
  | .lit v => .ok v
  | .name n =>
    match lookupName bindings globals n with
    | some v => .ok v
    | none => .error (n ++ " is not defined")

/-- Outcome of executing the async body: the captured log lines and the
error it rejected with, if any. -/
structure ExecResult where
  logs : List String
  err : Option String
deriving DecidableEq, Repr

/-- Executes the statements of the source text in order, accumulating
captured lines; a raised condition stops execution and becomes `err`. -/
def execStmts (bindings globals : List (String × JsValue)) :
    List Stmt → List String → ExecResult
  | [], logs => { logs := logs, err := none }
  | .call ch args :: rest, logs =>
    match args.mapM (evalExpr bindings globals) with
    | .error e => { logs := logs, err := some e }
    | .ok vs =>
      let logs2 :=
        match ch with
        | .log => mockConsoleLog logs vs
        | .error => mockConsoleError logs vs
        | .warn => mockConsoleWarn logs vs
      execStmts bindings globals rest logs2
  | .throwErr m :: _, logs => { logs := logs, err := some m }

/-! ## The DexBee table surface consumed by the playground -/

/-- A managed table of the ephemeral database: the stored rows keyed by
their auto-increment primary key, next key to assign. Rows are only ever
appended with strictly increasing keys, so the stored order is primary-key
order, which is the order `getAll` (and hence `all()`) returns. -/
structure Table (α : Type) where
  rows : List (Nat × α)
  nextId : Nat
deriving DecidableEq, Repr

/-- Table `insert` with an auto-increment primary key. -/
def Table.insert {α : Type} (t : Table α) (x : α) : Table α :=
  { rows := t.rows ++ [(t.nextId, x)], nextId := t.nextId + 1 }

/-- Table `insertMany`: inserts the records in order. -/
def Table.insertMany {α : Type} (t : Table α) (xs : List α) : Table α :=
  xs.foldl Table.insert t

/-- Table `all()`: every record in primary-key order. -/
def Table.all {α : Type} (t : Table α) : List (Nat × α) := t.rows

/-- Table `delete(id)`: removes the record with the given primary key. -/
def Table.delete {α : Type} (t : Table α) (id : Nat) : Table α :=
  { t with rows := t.rows.filter (fun r => r.1 != id) }

/-- Clearing one table the way `clearSampleData` does: fetch `all()` and
delete each returned record by its primary key. -/
def Table.clearViaAll {α : Type} (t : Table α) : Table α :=
  (t.all.map Prod.fst).foldl Table.delete t

/-- A record of the `orders` table (schema in TabbedCodeBlock.tsx
lines 196-211); `total` is the exact decimal amount and `created_at` the
date literal the seed passes to `new Date`. -/
structure OrderRec where
  customer_name : String
  status : String
  total : Rat
  created_at : String
deriving DecidableEq, Repr

/-- A record of the `users` table (schema lines 212-226). -/
structure UserRec where
  name : String
  email : String
  age : Nat
  created_at : String
deriving DecidableEq, Repr

/-- A record of the `products` table (schema lines 227-240). -/
structure ProductRec where
  name : String
  price : Rat
  category : String
deriving DecidableEq, Repr

/-- The ephemeral database: the three managed tables. -/
structure DB where
  orders : Table OrderRec
  users : Table UserRec
  products : Table ProductRec
deriving DecidableEq, Repr

/-- The fixed sample `orders` dataset (TabbedCodeBlock.tsx lines 168-175). -/
def sampleOrders : List OrderRec :=
  [ { customer_name := "Alice Johnson", status := "completed", total := 150.50, created_at := "2024-01-15" }
  , { customer_name := "Bob Smith", status := "completed", total := 89.99, created_at := "2024-01-16" }
  , { customer_name := "Charlie Brown", status := "pending", total := 245.75, created_at := "2024-01-17" }
  , { customer_name := "Diana Wilson", status := "completed", total := 67.25, created_at := "2024-01-18" }
  , { customer_name := "Edward Davis", status := "completed", total := 312.40, created_at := "2024-01-19" }
  , { customer_name := "Fiona Miller", status := "cancelled", total := 45.00, created_at := "2024-01-20" } ]

/-- The fixed sample `users` dataset (lines 177-182). -/
def sampleUsers : List UserRec :=
  [ { name := "Alice Johnson", email := "alice@company.com", age := 28, created_at := "2023-12-01" }
  , { name := "Bob Smith", email := "bob@company.com", age := 35, created_at := "2023-12-02" }
  , { name := "Charlie Brown", email := "charlie@other.com", age := 22, created_at := "2023-12-03" } ]

/-- The fixed sample `products` dataset (lines 184-189). -/
def sampleProducts : List ProductRec :=
  [ { name := "Laptop Pro", price := 1299.99, category := "Electronics" }
  , { name := "Wireless Mouse", price := 29.99, category := "Electronics" }
  , { name := "Coffee Mug", price := 12.50, category := "Office" } ]

/-! ## The playground session (TabbedCodeBlock.tsx) -/

/-- Failure injection for the awaited storage operations of the session:
each field, when `some msg`, makes the corresponding step raise an error
with that message — `connectFails` at `DexBee.connect`, `clearFails` at the
first awaited operation inside `clearSampleData`, `insertFails` at
`insertMany` inside `insertSampleData`. -/
structure FailureProfile where
  connectFails : Option String
  clearFails : Option String
  insertFails : Option String
deriving DecidableEq, Repr

/-- The profile under which every storage operation succeeds. -/
def noFail : FailureProfile := { connectFails := none, clearFails := none, insertFails := none }

/-- Embeds `clearSampleData` (TabbedCodeBlock.tsx lines 138-163): for each
managed table, fetch `all()` and delete every record. The whole body is
wrapped in try/catch whose handler only logs a warning, so an injected
failure is caught here and never propagates; the injected failure is raised
by the first awaited operation, leaving the tables unchanged. -/
def clearSampleData (fp : FailureProfile) (db : DB) : DB :=
  match fp.clearFails with
  | some _ => db
  | none =>
    { orders := db.orders.clearViaAll
      users := db.users.clearViaAll
      products := db.products.clearViaAll }

/-- Embeds `insertSampleData` (TabbedCodeBlock.tsx lines 166-190): insert
the three fixed datasets; an `insertMany` rejection propagates to the
caller. -/
def insertSampleData (fp : FailureProfile) (db : DB) : Except String DB :=
  match fp.insertFails with
  | some e => .error e
  | none =>
    .ok
      { orders := db.orders.insertMany sampleOrders
        users := db.users.insertMany sampleUsers
        products := db.products.insertMany sampleProducts }

/-- The React state of the playground component that the session operations
read and write: the database handle (`null` until initialization installs
it), the `isInitialized` flag, the three operation flags, and the output
pane text (the session's `lastOutput`). -/
structure PlaygroundState where
  db : Option DB
  isInitialized : Bool
  isInitializing : Bool
  isRunning : Bool
  isResetting : Bool
  output : String
deriving DecidableEq, Repr

/-- The component state as first mounted. -/
def freshPlayground : PlaygroundState :=
  { db := none, isInitialized := false, isInitializing := false
    isRunning := false, isResetting := false, output := "" }

/-- Status message set when initialization starts. -/
def initializingMsg : String := "🚀 Initializing playground database..."

/-- Status message set when initialization completes. -/
def readyMsg : String := "✅ Playground ready! Sample data loaded. Try running the query above."

/-- Status message recording an initialization failure. -/
def initFailMsg (e : String) : String := "❌ Failed to initialize database: " ++ e

/-- Status message set when a reset starts. -/
def resettingMsg : String := "🔄 Resetting playground database..."

/-- Status message set when a reset completes. -/
def resetOkMsg : String := "✅ Playground database reset successfully! Fresh sample data loaded."

/-- Status message recording a reset failure. -/
def resetFailMsg (e : String) : String := "❌ Error resetting playground: " ++ e

/-- Embeds `initializePlayground` (TabbedCodeBlock.tsx lines 245-274).
`store` is the persisted contents already present under the name
`playground-demo` when `connect` succeeds — possibly left by an earlier
page load, since the underlying storage is per-origin and durable. The
guard returns early when `isInitializing` is set or a handle is already
installed; on failure the catch records the message and the finally clause
clears `isInitializing`. -/
def initializePlayground (fp : FailureProfile) (store : DB) (s : PlaygroundState) :
    PlaygroundState :=
  if s.isInitializing || s.db.isSome then s
  else
    let s1 := { s with isInitializing := true, output := initializingMsg }
    match fp.connectFails with
    | some e => { s1 with output := initFailMsg e, isInitializing := false }
    | none =>
      let db1 := clearSampleData fp store
      match insertSampleData fp db1 with
      | .error e => { s1 with output := initFailMsg e, isInitializing := false }
      | .ok db2 =>
        { s1 with db := some db2, isInitialized := true
                  output := readyMsg, isInitializing := false }

/-- Embeds `resetPlayground` (TabbedCodeBlock.tsx lines 277-295). The guard
returns early when no handle exists, a reset is already active, or the
session is not initialized — it does not consult `isRunning`. -/
def resetPlayground (fp : FailureProfile) (s : PlaygroundState) : PlaygroundState :=
  match s.db with
  | none => s
  | some db =>
    if s.isResetting || !s.isInitialized then s
    else
      let s1 := { s with isResetting := true, output := resettingMsg }
      let db1 := clearSampleData fp db
      match insertSampleData fp db1 with
      | .error e => { s1 with output := resetFailMsg e, isResetting := false }
      | .ok db2 => { s1 with db := some db2, output := resetOkMsg, isResetting := false }

/-- The six parameters `runCode` passes to the constructed function
(TabbedCodeBlock.tsx lines 307, 323): the capture facade under the name
`console`, the session handle under `db`, and the query-condition
constructors `eq`, `gt`, `and`, `or`. -/
def sandboxBindings : List (String × JsValue) :=
  [ ("console", .ext "console"), ("db", .ext "db"), ("eq", .ext "eq")
  , ("gt", .ext "gt"), ("and", .ext "and"), ("or", .ext "or") ]

/-- Embeds `runCode` (TabbedCodeBlock.tsx lines 297-332). `src` is the
prepared source text: `.error m` models `new Function` itself throwing a
SyntaxError (inside the try), `.ok prog` a body that parsed. The second
component of the result records whether a sandboxed execution was started.
The guard returns early when the block is not runnable, no handle exists,
or the session is not initialized — it does not consult `isRunning` or
`isResetting`. Returning a plain pair (not `Except`) reflects the
try/catch/finally around the whole body: every failure is converted into
the output text and nothing re-throws to the caller. -/
def runCode (runnable : Bool) (globals : List (String × JsValue))
    (src : Except String (List Stmt)) (s : PlaygroundState) : PlaygroundState × Bool :=
  if !runnable || s.db.isNone || !s.isInitialized then (s, false)
  else
    let s1 := { s with isRunning := true, output := "Running..." }
    match src with
    | .error m => ({ s1 with output := "Error: " ++ m, isRunning := false }, false)
    | .ok prog =>
      let res := execStmts sandboxBindings globals prog []
      match res.err with
      | some m => ({ s1 with output := "Error: " ++ m, isRunning := false }, true)
      | none =>
        let joined := String.intercalate "\n" res.logs
        ({ s1 with
            output := if joined == "" then "Code executed successfully (no output)" else joined
            isRunning := false }, true)

/-- An empty managed table; IndexedDB auto-increment keys start at 1. -/
def emptyTable (α : Type) : Table α := { rows := [], nextId := 1 }

/-- A database with all three tables empty. -/
def emptyDB : DB :=
  { orders := emptyTable OrderRec, users := emptyTable UserRec, products := emptyTable ProductRec }

/-- A session state with a handle installed and a run outstanding
(`isRunning` set), as left by an execution that has started and not yet
completed. -/
def runningState : PlaygroundState :=
  { db := some emptyDB, isInitialized := true, isInitializing := false
    isRunning := true, isResetting := false, output := "Running..." }

/-- A session state at `Ready`: handle installed, initialized, no
operation active. -/
def readyState : PlaygroundState :=
  { db := some emptyDB, isInitialized := true, isInitializing := false
    isRunning := false, isResetting := false, output := readyMsg }

/-! ## Helper lemmas about the table surface -/

/-- Folding `delete` over a list of keys filters out every row whose key is
among them. -/
theorem foldl_delete_rows {α : Type} (ids : List Nat) (t : Table α) :
    (ids.foldl Table.delete t).rows = t.rows.filter (fun r => decide (r.1 ∉ ids)) := by
  induction ids generalizing t with
  | nil => simp
  | cons i ids ih =>
    rw [List.foldl_cons, ih]
    show (t.rows.filter (fun r => r.1 != i)).filter (fun r => decide (r.1 ∉ ids)) = _
    rw [List.filter_filter]
    apply List.filter_congr
    intro r _
    simp [List.mem_cons, not_or, bne, Bool.beq_eq_decide_eq, Bool.and_comm]

/-- Clearing a table through `all()` plus per-key `delete` empties it. -/
theorem clearViaAll_rows {α : Type} (t : Table α) : t.clearViaAll.rows = [] := by
  rw [Table.clearViaAll, foldl_delete_rows]
  apply List.filter_eq_nil_iff.mpr
  intro r hr
  simp only [decide_eq_true_eq]
  intro h
  exact h (List.mem_map_of_mem Prod.fst hr)

/-- The records of a table after `insertMany`, ignoring the assigned
primary keys, are the previous records followed by the inserted ones. -/
theorem insertMany_map_snd {α : Type} (xs : List α) (t : Table α) :
    (t.insertMany xs).rows.map Prod.snd = t.rows.map Prod.snd ++ xs := by
  induction xs generalizing t with
  | nil => simp [Table.insertMany]
  | cons x xs ih =>
    show (Table.insertMany (Table.insert t x) xs).rows.map Prod.snd = _
    rw [ih, Table.insert]
    simp

/-! ## Claim theorems -/

/-- C7 (confirmed): `getInitialTheme` called with no rendering surface
always returns `false`, regardless of any stored preference; with a
rendering surface it resolves the stored preference first, else the
OS-level color-scheme preference, defaulting to light; and it never raises
on storage access failure — an unavailable storage is treated exactly as an
absent stored preference. -/
theorem getInitialTheme_spec (w : BrowserWindow) :
    getInitialTheme none = false
    ∧ (safeGetStoredTheme w.storage = some "dark" → getInitialTheme (some w) = true)
    ∧ (safeGetStoredTheme w.storage = some "light" → getInitialTheme (some w) = false)
    ∧ (safeGetStoredTheme w.storage = none → getInitialTheme (some w) = w.systemPrefersDark)
    ∧ (w.storage.available = false →
        getInitialTheme (some w)
          = getInitialTheme (some { w with storage := { available := true, stored := none } })) := by
  refine ⟨rfl, ?_, ?_, ?_, ?_⟩
  · intro h
    simp [getInitialTheme, jsOrElse, h]
  · intro h
    simp [getInitialTheme, jsOrElse, h]
  · intro h
    cases hs : w.systemPrefersDark <;> simp [getInitialTheme, jsOrElse, h, hs]
  · intro h
    simp [getInitialTheme, safeGetStoredTheme, getItemTheme, h]

/-- C7 witness: with an unavailable storage carrying a (unreachable) stored
light preference, the result coincides with the no-stored-preference
result. -/
theorem getInitialTheme_spec_witness :
    getInitialTheme
        (some { systemPrefersDark := true
                storage := { available := false, stored := some "light" } })
      = getInitialTheme
        (some { systemPrefersDark := true
                storage := { available := true, stored := none } }) :=
  (getInitialTheme_spec
    { systemPrefersDark := true
      storage := { available := false, stored := some "light" } }).2.2.2.2 rfl

/-- C8 counterexample: the cited `toggleTheme` of src/utils/theme.ts calls
`localStorage.setItem` unguarded, so with storage unavailable the exception
propagates to the caller and the broadcast is skipped — refuting the claim
that no exception surfaces to the caller in any case. -/
theorem utilsToggleTheme_raises_counterexample :
    (utilsToggleTheme
        { darkClass := false, storage := { available := false, stored := none }
          events := [] }).raised = some "SecurityError"
    ∧ (utilsToggleTheme
        { darkClass := false, storage := { available := false, stored := none }
          events := [] }).page.events = [] := by
  decide

/-- C8 (amended): the hook's `toggleTheme` (src/hooks/useTheme.ts) computes
the negated theme, applies it to the document-level styling flag, persists
it best-effort — an unavailable storage leaves the preference unpersisted
while the in-memory state still updates — and broadcasts a change event
carrying the new theme name and its boolean form, never raising; but the
utility `toggleTheme` of src/utils/theme.ts persists unguarded: when
storage is unavailable it raises to the caller, skipping the broadcast,
though the styling flag has already been toggled. -/
theorem toggleTheme_amended (p : HookPage) (q : UtilsPage) :
    (hookToggleTheme p).isDark = !p.isDark
    ∧ (hookToggleTheme p).darkClass = !p.isDark
    ∧ (hookToggleTheme p).events
        = p.events ++ [{ theme := if p.isDark then "light" else "dark", isDark := !p.isDark }]
    ∧ (p.storage.available = true →
        (hookToggleTheme p).storage.stored = some (if p.isDark then "light" else "dark"))
    ∧ (p.storage.available = false → (hookToggleTheme p).storage = p.storage)
    ∧ (q.storage.available = false →
        (utilsToggleTheme q).raised = some "SecurityError"
        ∧ (utilsToggleTheme q).page.storage = q.storage
        ∧ (utilsToggleTheme q).page.events = q.events
        ∧ (utilsToggleTheme q).page.darkClass = !q.darkClass) := by
  refine ⟨?_, ?_, ?_, ?_, ?_, ?_⟩
  · cases hp : p.isDark <;> simp [hookToggleTheme, hp]
  · cases hp : p.isDark <;> simp [hookToggleTheme, hp]
  · cases hp : p.isDark <;> simp [hookToggleTheme, hp]
  · intro h
    cases hp : p.isDark <;>
      simp [hookToggleTheme, safeSetStoredTheme, setItemTheme, hp, h]
  · intro h
    cases hp : p.isDark <;>
      simp [hookToggleTheme, safeSetStoredTheme, setItemTheme, hp, h]
  · intro h
    cases hq : q.darkClass <;>
      simp [utilsToggleTheme, setItemTheme, hq, h]

/-- C8 witness: a toggle from light with unavailable storage — the hook
version still updates the in-memory state, and the utility version raises. -/
theorem toggleTheme_amended_witness :
    (hookToggleTheme
        { darkClass := false, storage := { available := false, stored := none }
          isDark := false, events := [] }).isDark = true
    ∧ (utilsToggleTheme
        { darkClass := true, storage := { available := false, stored := none }
          events := [] }).raised = some "SecurityError" :=
  ⟨(toggleTheme_amended
      { darkClass := false, storage := { available := false, stored := none }
        isDark := false, events := [] }
      { darkClass := true, storage := { available := false, stored := none }
        events := [] }).1,
   ((toggleTheme_amended
      { darkClass := false, storage := { available := false, stored := none }
        isDark := false, events := [] }
      { darkClass := true, storage := { available := false, stored := none }
        events := [] }).2.2.2.2.2 rfl).1⟩

/-- C9 counterexample: a composite value logged through the error channel
is coerced with String(), not rendered as indented structured text — for an
array value whose indented rendering differs from its String coercion, the
captured error line carries only the coercion. -/
theorem error_channel_counterexample :
    mockConsoleError [] [JsValue.comp "[\n  1,\n  2\n]" "1,2"] = ["ERROR: 1,2"]
    ∧ mockConsoleLog [] [JsValue.comp "[\n  1,\n  2\n]" "1,2"] = ["[\n  1,\n  2\n]"]
    ∧ "ERROR: 1,2" ≠ "ERROR: [\n  1,\n  2\n]" := by
  decide

/-- C9 (amended): the log channel stringifies primitive values as-is and
renders composite values as their indented structured text; the error and
warning channels tag the captured line with the `ERROR: ` / `WARN: ` level
prefix but coerce every argument — composite values included — with plain
String(), so composites logged through those channels are not rendered as
indented structured text. -/
theorem console_serialization_amended (logs : List String) (p j sr : String) :
    mockConsoleLog logs [JsValue.prim p] = logs ++ [p]
    ∧ mockConsoleLog logs [JsValue.comp j sr] = logs ++ [j]
    ∧ mockConsoleError logs [JsValue.prim p] = logs ++ ["ERROR: " ++ p]
    ∧ mockConsoleWarn logs [JsValue.prim p] = logs ++ ["WARN: " ++ p]
    ∧ mockConsoleError logs [JsValue.comp j sr] = logs ++ ["ERROR: " ++ sr]
    ∧ mockConsoleWarn logs [JsValue.comp j sr] = logs ++ ["WARN: " ++ sr] := by
  refine ⟨?_, ?_, ?_, ?_, ?_, ?_⟩ <;> rfl

/-- C10 (confirmed): when the sandboxed execution completes without raising
and no line was written through the injected facade, runCode sets the
session lastOutput to the exact placeholder string, never to the empty
string. -/
theorem runCode_empty_placeholder (g : List (String × JsValue)) (prog : List Stmt)
    (s : PlaygroundState) (d : DB)
    (hdb : s.db = some d) (hinit : s.isInitialized = true)
    (hok : (execStmts sandboxBindings g prog []).err = none)
    (hlogs : (execStmts sandboxBindings g prog []).logs = []) :
    (runCode true g (.ok prog) s).1.output = "Code executed successfully (no output)"
    ∧ (runCode true g (.ok prog) s).1.output ≠ "" := by
  simp [runCode, hdb, hinit, hok, hlogs, String.intercalate]

/-- C10 witness: running the empty source from a Ready session produces the
placeholder. -/
theorem runCode_empty_placeholder_witness :
    (runCode true [] (.ok []) readyState).1.output = "Code executed successfully (no output)"
    ∧ (runCode true [] (.ok []) readyState).1.output ≠ "" :=
  runCode_empty_placeholder [] [] readyState emptyDB rfl rfl rfl rfl

/-- C4 (confirmed): for every source whose preparation or execution raises
— a syntax error thrown by new Function, a thrown value, or a rejected
awaited step — runCode converts the failure into the single Error-prefixed
outcome line, leaves the handle and the initialized flag untouched, and
returns the session to Ready (isRunning cleared); runCode is a total
function into session states, so no failure re-throws to the caller. -/
theorem runCode_error_handling (g : List (String × JsValue)) (prog : List Stmt)
    (m : String) (s : PlaygroundState) (d : DB)
    (hdb : s.db = some d) (hinit : s.isInitialized = true) :
    ((runCode true g (.error m) s).1.output = "Error: " ++ m
      ∧ (runCode true g (.error m) s).1.isRunning = false
      ∧ (runCode true g (.error m) s).1.db = s.db
      ∧ (runCode true g (.error m) s).1.isInitialized = true)
    ∧ ((execStmts sandboxBindings g prog []).err = some m →
        (runCode true g (.ok prog) s).1.output = "Error: " ++ m
        ∧ (runCode true g (.ok prog) s).1.isRunning = false
        ∧ (runCode true g (.ok prog) s).1.db = s.db
        ∧ (runCode true g (.ok prog) s).1.isInitialized = true) := by
  constructor
  · simp [runCode, hdb, hinit]
  · intro h
    simp [runCode, hdb, hinit, h]

/-- C4 witness: a source that throws new Error with message boom yields the
error-tagged outcome line containing boom, back at Ready. -/
theorem runCode_error_handling_witness :
    (execStmts sandboxBindings [] [Stmt.throwErr "boom"] []).err = some "boom"
    ∧ (runCode true [] (.ok [Stmt.throwErr "boom"]) readyState).1.output = "Error: boom"
    ∧ (runCode true [] (.ok [Stmt.throwErr "boom"]) readyState).1.isRunning = false :=
  ⟨rfl,
   ((runCode_error_handling [] [Stmt.throwErr "boom"] "boom" readyState emptyDB rfl rfl).2
      rfl).1,
   ((runCode_error_handling [] [Stmt.throwErr "boom"] "boom" readyState emptyDB rfl rfl).2
      rfl).2.1⟩

/-- C2 (confirmed): from any persisted contents already under the database
name and any session not yet holding a handle, a failure-free initialize
installs a handle whose three managed tables hold exactly the fixed sample
dataset — same cardinality and field values, in seed order — and the
orders table holds exactly 6 records with statuses completed times 4,
pending times 1, cancelled times 1; since the pre-existing contents are
arbitrary, the postcondition is reproducible across repeated
initializations under the same name. -/
theorem initialize_seeds_sample_dataset (store : DB) (s : PlaygroundState)
    (hdb : s.db = none) (hinit : s.isInitializing = false) :
    ∃ db2, (initializePlayground noFail store s).db = some db2
      ∧ db2.orders.all.map Prod.snd = sampleOrders
      ∧ db2.users.all.map Prod.snd = sampleUsers
      ∧ db2.products.all.map Prod.snd = sampleProducts
      ∧ (initializePlayground noFail store s).isInitialized = true
      ∧ (initializePlayground noFail store s).output = readyMsg
      ∧ sampleOrders.length = 6
      ∧ (sampleOrders.filter (fun r => r.status == "completed")).length = 4
      ∧ (sampleOrders.filter (fun r => r.status == "pending")).length = 1
      ∧ (sampleOrders.filter (fun r => r.status == "cancelled")).length = 1 := by
  have hres : initializePlayground noFail store s
      = { s with
          db := some
            { orders := (Table.clearViaAll store.orders).insertMany sampleOrders
              users := (Table.clearViaAll store.users).insertMany sampleUsers
              products := (Table.clearViaAll store.products).insertMany sampleProducts }
          isInitialized := true
          isInitializing := false
          output := readyMsg } := by
    simp [initializePlayground, hdb, hinit, noFail, clearSampleData, insertSampleData]
  rw [hres]
  refine ⟨_, rfl, ?_, ?_, ?_, rfl, rfl, rfl, rfl, rfl, rfl⟩
  · show ((Table.clearViaAll store.orders).insertMany sampleOrders).rows.map Prod.snd = _
    rw [insertMany_map_snd, clearViaAll_rows]
    rfl
  · show ((Table.clearViaAll store.users).insertMany sampleUsers).rows.map Prod.snd = _
    rw [insertMany_map_snd, clearViaAll_rows]
    rfl
  · show ((Table.clearViaAll store.products).insertMany sampleProducts).rows.map Prod.snd = _
    rw [insertMany_map_snd, clearViaAll_rows]
    rfl

/-- C2 witness: first initialization over an empty store from the freshly
mounted component. -/
theorem initialize_seeds_sample_dataset_witness :
    ∃ db2, (initializePlayground noFail emptyDB freshPlayground).db = some db2
      ∧ db2.orders.all.map Prod.snd = sampleOrders
      ∧ db2.users.all.map Prod.snd = sampleUsers
      ∧ db2.products.all.map Prod.snd = sampleProducts
      ∧ (initializePlayground noFail emptyDB freshPlayground).isInitialized = true
      ∧ (initializePlayground noFail emptyDB freshPlayground).output = readyMsg
      ∧ sampleOrders.length = 6
      ∧ (sampleOrders.filter (fun r => r.status == "completed")).length = 4
      ∧ (sampleOrders.filter (fun r => r.status == "pending")).length = 1
      ∧ (sampleOrders.filter (fun r => r.status == "cancelled")).length = 1 :=
  initialize_seeds_sample_dataset emptyDB freshPlayground rfl rfl

/-- C3 counterexample: reset invoked from the Running state is not a
rejected no-op — the guard of resetPlayground does not consult isRunning,
so the call proceeds and overwrites the output with the reset success
message. -/
theorem reset_during_running_counterexample :
    runningState.isRunning = true
    ∧ (resetPlayground noFail runningState).output = resetOkMsg
    ∧ runningState.output ≠ resetOkMsg := by
  decide

/-- C3 (amended): reset is a rejected no-op when no handle exists (the
Uninitialized and Initializing states), when initialization has not
completed, and while another reset is active — but it is not gated against
Running; whenever it proceeds under a failure-free profile it deletes all
records from every managed table, reinserts the fixed sample dataset —
leaving each table's contents equal to the sample dataset regardless of
prior mutations by an intervening run — reports success, and clears the
Resetting flag. -/
theorem reset_amended (fp : FailureProfile) (s : PlaygroundState) (d : DB) :
    (s.db = none → resetPlayground fp s = s)
    ∧ (s.isResetting = true → resetPlayground fp s = s)
    ∧ (s.isInitialized = false → resetPlayground fp s = s)
    ∧ (s.db = some d → s.isResetting = false → s.isInitialized = true →
        ∃ db2, (resetPlayground noFail s).db = some db2
          ∧ db2.orders.all.map Prod.snd = sampleOrders
          ∧ db2.users.all.map Prod.snd = sampleUsers
          ∧ db2.products.all.map Prod.snd = sampleProducts
          ∧ (resetPlayground noFail s).isResetting = false
          ∧ (resetPlayground noFail s).output = resetOkMsg) := by
  refine ⟨?_, ?_, ?_, ?_⟩
  · intro h
    simp [resetPlayground, h]
  · intro h
    cases hdb : s.db <;> simp [resetPlayground, hdb, h]
  · intro h
    cases hdb : s.db <;> simp [resetPlayground, hdb, h]
  · intro hdb hres hinit
    have hstep : resetPlayground noFail s
        = { s with
            db := some
              { orders := (Table.clearViaAll d.orders).insertMany sampleOrders
                users := (Table.clearViaAll d.users).insertMany sampleUsers
                products := (Table.clearViaAll d.products).insertMany sampleProducts }
            isResetting := false
            output := resetOkMsg } := by
      simp [resetPlayground, hdb, hres, hinit, noFail, clearSampleData, insertSampleData]
    rw [hstep]
    refine ⟨_, rfl, ?_, ?_, ?_, rfl, rfl⟩
    · show ((Table.clearViaAll d.orders).insertMany sampleOrders).rows.map Prod.snd = _
      rw [insertMany_map_snd, clearViaAll_rows]
      rfl
    · show ((Table.clearViaAll d.users).insertMany sampleUsers).rows.map Prod.snd = _
      rw [insertMany_map_snd, clearViaAll_rows]
      rfl
    · show ((Table.clearViaAll d.products).insertMany sampleProducts).rows.map Prod.snd = _
      rw [insertMany_map_snd, clearViaAll_rows]
      rfl

/-- C3 witness: a reset from the Ready state reseeds all three tables to
the fixed sample dataset. -/
theorem reset_amended_witness :
    ∃ db2, (resetPlayground noFail readyState).db = some db2
      ∧ db2.orders.all.map Prod.snd = sampleOrders
      ∧ db2.users.all.map Prod.snd = sampleUsers
      ∧ db2.products.all.map Prod.snd = sampleProducts
      ∧ (resetPlayground noFail readyState).isResetting = false
      ∧ (resetPlayground noFail readyState).output = resetOkMsg :=
  (reset_amended noFail readyState emptyDB).2.2.2 rfl rfl rfl

/-- C1 counterexample: with a run outstanding (isRunning set), a second
runCode invocation is not rejected: the guard does not consult isRunning,
so the call starts another sandboxed execution and overwrites lastOutput. -/
theorem runCode_overlap_counterexample :
    runningState.isRunning = true
    ∧ (runCode true [] (.ok [Stmt.call .log [Expr.lit (JsValue.prim "hi")]]) runningState).2
        = true
    ∧ (runCode true [] (.ok [Stmt.call .log [Expr.lit (JsValue.prim "hi")]])
        runningState).1.output = "hi" := by
  decide

/-- C1 (amended): initialize is rejected synchronously while an initialize
is active or once a handle exists, and reset while another reset is active;
but the Running flag gates nothing: run invoked while a run is outstanding
is not rejected and starts a second sandboxed execution, and reset invoked
while a run is outstanding proceeds — mutual exclusion against Running
exists only in the UI, which disables the Run and Reset buttons while
either flag is set. -/
theorem operation_gating_amended (fp : FailureProfile) (store : DB)
    (g : List (String × JsValue)) (prog : List Stmt) (s : PlaygroundState) (d : DB) :
    (s.isInitializing = true → initializePlayground fp store s = s)
    ∧ (s.db.isSome = true → initializePlayground fp store s = s)
    ∧ (s.isResetting = true → resetPlayground fp s = s)
    ∧ (s.db = some d → s.isInitialized = true → s.isRunning = true →
        (runCode true g (.ok prog) s).2 = true)
    ∧ (s.db = some d → s.isInitialized = true → s.isResetting = false → s.isRunning = true →
        (resetPlayground noFail s).output = resetOkMsg) := by
  refine ⟨?_, ?_, ?_, ?_, ?_⟩
  · intro h
    simp [initializePlayground, h]
  · intro h
    simp [initializePlayground, h]
  · intro h
    cases hdb : s.db <;> simp [resetPlayground, hdb, h]
  · intro hdb hinit _
    simp only [runCode, hdb, hinit, Option.isNone_some, Bool.not_true, Bool.or_false,
      Bool.false_or, if_false, Bool.false_eq_true]
    cases h2 : (execStmts sandboxBindings g prog []).err <;> simp [h2]
  · intro hdb hinit hres _
    simp [resetPlayground, hdb, hinit, hres, noFail, insertSampleData]

/-- C1 witness: the rejections that do exist, applied concretely — a second
initialize once a handle is installed is a no-op, and so is a reset while
resetting. -/
theorem operation_gating_amended_witness :
    initializePlayground noFail emptyDB readyState = readyState
    ∧ (runCode true [] (.ok []) runningState).2 = true :=
  ⟨(operation_gating_amended noFail emptyDB [] [] readyState emptyDB).2.1 rfl,
   (operation_gating_amended noFail emptyDB [] [] runningState emptyDB).2.2.2.1
      rfl rfl rfl⟩

/-- C5 counterexample: a failure raised while clearing pre-existing records
is swallowed inside clearSampleData (its catch only logs a warning), so
initialize continues, installs a handle and reports Ready — the session
does not return to Uninitialized and the failure is not recorded as
lastOutput. -/
theorem initialize_clear_failure_counterexample :
    (initializePlayground
        { connectFails := none, clearFails := some "delete failed", insertFails := none }
        emptyDB freshPlayground).isInitialized = true
    ∧ (initializePlayground
        { connectFails := none, clearFails := some "delete failed", insertFails := none }
        emptyDB freshPlayground).output = readyMsg := by
  decide

/-- C5 (amended): if connecting to the database or inserting the sample
dataset fails, initialize returns the session to Uninitialized — no handle
installed and the initialized flag still false — records the failure as
lastOutput through the user-visible status message, and leaves the guard
open so that retry is simply calling initialize again (shown by a
failure-free retry succeeding); a failure while clearing pre-existing
records, however, is swallowed inside clearSampleData and initialization
completes as Ready. -/
theorem initialize_failure_amended (store : DB) (s : PlaygroundState) (e : String)
    (hdb : s.db = none) (hinit : s.isInitializing = false)
    (hflag : s.isInitialized = false) :
    ((initializePlayground { connectFails := some e, clearFails := none, insertFails := none }
        store s).db = none
      ∧ (initializePlayground { connectFails := some e, clearFails := none, insertFails := none }
          store s).isInitialized = false
      ∧ (initializePlayground { connectFails := some e, clearFails := none, insertFails := none }
          store s).isInitializing = false
      ∧ (initializePlayground { connectFails := some e, clearFails := none, insertFails := none }
          store s).output = initFailMsg e)
    ∧ ((initializePlayground { connectFails := none, clearFails := none, insertFails := some e }
        store s).db = none
      ∧ (initializePlayground { connectFails := none, clearFails := none, insertFails := some e }
          store s).isInitialized = false
      ∧ (initializePlayground { connectFails := none, clearFails := none, insertFails := some e }
          store s).isInitializing = false
      ∧ (initializePlayground { connectFails := none, clearFails := none, insertFails := some e }
          store s).output = initFailMsg e)
    ∧ (∃ db2,
        (initializePlayground noFail store
          (initializePlayground { connectFails := some e, clearFails := none, insertFails := none }
            store s)).db = some db2
        ∧ (initializePlayground noFail store
            (initializePlayground { connectFails := some e, clearFails := none, insertFails := none }
              store s)).isInitialized = true)
    ∧ (initializePlayground { connectFails := none, clearFails := some e, insertFails := none }
        store s).isInitialized = true := by
  have hfail : initializePlayground
      { connectFails := some e, clearFails := none, insertFails := none } store s
      = { s with isInitializing := false, output := initFailMsg e } := by
    simp [initializePlayground, hdb, hinit]
  refine ⟨?_, ?_, ?_, ?_⟩
  · rw [hfail]
    exact ⟨hdb, hflag, rfl, rfl⟩
  · have h2 : initializePlayground
        { connectFails := none, clearFails := none, insertFails := some e } store s
        = { s with isInitializing := false, output := initFailMsg e } := by
      simp [initializePlayground, hdb, hinit, insertSampleData]
    rw [h2]
    exact ⟨hdb, hflag, rfl, rfl⟩
  · rw [hfail]
    have := initialize_seeds_sample_dataset store
      { s with isInitializing := false, output := initFailMsg e } hdb rfl
    obtain ⟨db2, h1, -, -, -, h5, -⟩ := this
    exact ⟨db2, h1, h5⟩
  · simp [initializePlayground, hdb, hinit, clearSampleData, insertSampleData]

/-- C5 witness: a connect failure from a fresh session leaves it
Uninitialized with the failure message, and a retry then succeeds. -/
theorem initialize_failure_amended_witness :
    (initializePlayground { connectFails := some "boom", clearFails := none, insertFails := none }
        emptyDB freshPlayground).db = none
    ∧ (initializePlayground { connectFails := some "boom", clearFails := none, insertFails := none }
        emptyDB freshPlayground).output = initFailMsg "boom"
    ∧ (∃ db2,
        (initializePlayground noFail emptyDB
          (initializePlayground
            { connectFails := some "boom", clearFails := none, insertFails := none }
            emptyDB freshPlayground)).db = some db2
        ∧ (initializePlayground noFail emptyDB
            (initializePlayground
              { connectFails := some "boom", clearFails := none, insertFails := none }
              emptyDB freshPlayground)).isInitialized = true) :=
  ⟨(initialize_failure_amended emptyDB freshPlayground "boom" rfl rfl rfl).1.1,
   (initialize_failure_amended emptyDB freshPlayground "boom" rfl rfl rfl).1.2.2.2,
   (initialize_failure_amended emptyDB freshPlayground "boom" rfl rfl rfl).2.2.1⟩

/-- C6 counterexample: the same source text under the same injected
bindings captures different output under two different ambient global
scopes, through a name that is not a binding key — the constructed function
body has implicit access to the ambient global scope, so the execution
outcome does not depend only on the source text and the bindings. -/
theorem sandbox_globals_counterexample :
    sandboxBindings.lookup "leaked" = none
    ∧ (execStmts sandboxBindings [("leaked", JsValue.prim "1")]
        [Stmt.call .log [Expr.name "leaked"]] []).logs = ["1"]
    ∧ (execStmts sandboxBindings [("leaked", JsValue.prim "2")]
        [Stmt.call .log [Expr.name "leaked"]] []).logs = ["2"] := by
  decide

/-- C6 (amended): the injected parameter names shadow same-named ambient
globals — in particular `console` inside the executed source resolves to
the injected capture facade, so logged output is captured instead of
printed — but every other ambient global name remains addressable: a free
identifier resolves exactly when it is a binding key or a global name, so
the execution outcome depends on the ambient global scope as well as on
the source text and the bindings. -/
theorem sandbox_scope_amended (g : List (String × JsValue)) (n : String) (v : JsValue) :
    (sandboxBindings.lookup n = some v → lookupName sandboxBindings g n = some v)
    ∧ (lookupName sandboxBindings g n = none
        ↔ sandboxBindings.lookup n = none ∧ g.lookup n = none)
    ∧ lookupName sandboxBindings g "console" = some (JsValue.ext "console") := by
  refine ⟨?_, ?_, rfl⟩
  · intro h
    simp [lookupName, h]
  · unfold lookupName
    cases hb : sandboxBindings.lookup n <;> simp [hb]

/-- C6 witness: a page-level global named console is shadowed by the
injected facade binding. -/
theorem sandbox_scope_amended_witness :
    sandboxBindings.lookup "console" = some (JsValue.ext "console")
    ∧ lookupName sandboxBindings [("console", JsValue.prim "page console")] "console"
        = some (JsValue.ext "console") :=
  ⟨rfl,
   (sandbox_scope_amended [("console", JsValue.prim "page console")] "console"
      (JsValue.ext "console")).1 rfl⟩

end DexBeeDocs
